import Mathlib

/-!
Verification of the occupancy-scheduling core of the Scolendar (bpp_api)
repository against its natural-language specification.

The embedding below translates the request handlers of
`scolendar/viewsets/occupancy_viewsets.py`, `classroom_viewsets.py`,
`subject_viewsets.py` and the serializers of `scolendar/serializers.py`
into pure Lean functions.  Persistent state (the relational store) is a
record of entity lists; each handler is a function from the pre-state and
the decoded request to an `Except` of an error kind or the post-state.
Timestamps and datetimes are Unix seconds (`Int`), in the single fixed
time zone the system attaches to stored instants.  `scolendar/models.py`
is not part of the provided sources; the entity field lists are modelled
from the specification's data model (spec section 3), which lists for
`Occupancy` exactly: id, classroom, subject (nullable), teacher,
group_number, start instant, duration, occupancy_type, name, and the
soft-delete flag.
-/

/-- Error outcomes a request can surface.  The `uncaught*` constructors
stand for Python exceptions that escape every `except` clause of the
handler (surfacing as an HTTP 500), which are distinct from the
documented error codes such as `InvalidID`. -/
inductive Err where
  | invalidID
  | endBeforeStart
  | classroomAlreadyOccupied
  | classOrGroupAlreadyOccupied
  | teacherAlreadyOccupied
  | teacherInCharge (msg : String)
  | classroomUsed
  | uncaughtClassroomDoesNotExist
  | uncaughtTypeError
  | uncaughtIndexError
  | uncaughtMultipleObjectsReturned
deriving Repr, DecidableEq

/-- Classroom entity: id, display name, capacity (spec section 3). -/
structure Classroom where
  id : Nat
  name : String
  capacity : Nat
deriving Repr, DecidableEq

/-- Occupancy entity.  Fields modelled from the spec's data model
(section 3) since `scolendar/models.py` is not under the provided
sources: the authoritative stored quantity is the `(start, duration)`
pair, the end instant being derived.  `subjectId`/`teacherId` are
nullable references. -/
structure Occupancy where
  id : Nat
  classroomId : Nat
  subjectId : Option Nat
  teacherId : Option Nat
  groupNumber : Nat
  startDatetime : Int
  duration : Int
  name : String
  occupancyType : String
  deleted : Bool
deriving Repr, DecidableEq

/-- Derived end instant: `end = start + duration`. -/
def Occupancy.endDatetime (o : Occupancy) : Int :=
  o.startDatetime + o.duration

/-- Two occupancies overlap when their half-open intervals
`[start, end)` intersect. -/
def overlapping (a b : Occupancy) : Bool :=
  decide (a.startDatetime < b.endDatetime) && decide (b.startDatetime < a.endDatetime)

/-- `Classroom.objects.get(id=...)`, returning `none` for
`Classroom.DoesNotExist`. -/
def findClassroom (classrooms : List Classroom) (cid : Nat) : Option Classroom :=
  classrooms.find? (fun c => c.id == cid)

/-- Embeds `SubjectOccupancyViewSet.post` (subject_viewsets.py lines
753-770) composed with `OccupancyCreationSerializer.save`
(serializers.py lines 268-282).  The serializer looks up the classroom,
then the subject (either miss is mapped to `InvalidID` by the handler),
then builds and saves the occupancy with
`duration = end_datetime - start_datetime`.  No other step occurs: the
handler performs no interval-conflict query and no `end > start`
validation before saving. -/
def occupancyCreate (classrooms : List Classroom) (subjectIds : List Nat)
    (occs : List Occupancy) (subjectId : Nat) (classroomId : Nat)
    (startTs : Int) (endTs : Int) (name : String) (occupancyType : String)
    (newId : Nat) : Except Err (List Occupancy) :=
  match findClassroom classrooms classroomId with
  | none => .error .invalidID
  | some classroom =>
    if subjectIds.contains subjectId then
      .ok (occs ++ [{ id := newId, classroomId := classroom.id,
                      subjectId := some subjectId, teacherId := none,
                      groupNumber := 0, startDatetime := startTs,
                      duration := endTs - startTs, name := name,
                      occupancyType := occupancyType, deleted := false }])
    else .error .invalidID

/-- Scenario occupancy of spec section 8: "Algo CM" in classroom B.001
from 09:00 to 10:30 on day D (seconds from midnight of day D). -/
def algoCM : Occupancy :=
  { id := 1, classroomId := 1, subjectId := some 1, teacherId := none,
    groupNumber := 0, startDatetime := 32400, duration := 5400,
    name := "Algo CM", occupancyType := "cm", deleted := false }

/-- The occupancy the creation request of claim C1 persists: "Algo TP
Groupe 1" in the same classroom from 10:00 to 11:30 on day D. -/
def algoTP : Occupancy :=
  { id := 2, classroomId := 1, subjectId := some 1, teacherId := none,
    groupNumber := 0, startDatetime := 36000, duration := 5400,
    name := "Algo TP Groupe 1", occupancyType := "tp", deleted := false }

/-- Claim C1: the claim states that creating an occupancy overlapping a
non-deleted occupancy of the same classroom fails with
`ClassroomAlreadyOccupied` and persists nothing.  The code does the
opposite: with "Algo CM" (09:00-10:30) already scheduled in classroom 1,
the creation request for 10:00-11:30 in classroom 1 returns success and
persists the overlapping occupancy — the handler never queries for
conflicts. -/
theorem occupancyCreate_persists_overlap :
    occupancyCreate [⟨1, "B.001", 30⟩] [1] [algoCM] 1 1 36000 41400
        "Algo TP Groupe 1" "tp" 2 = .ok [algoCM, algoTP]
    ∧ algoTP.classroomId = algoCM.classroomId
    ∧ overlapping algoTP algoCM = true
    ∧ algoCM.deleted = false ∧ algoTP.deleted = false :=
  ⟨rfl, rfl, rfl, rfl, rfl⟩

/-- Claim C2: the claim states that a create or update whose end instant
is not strictly after its start fails with `EndBeforeStart` and persists
nothing.  The code performs no such validation: a creation request with
`end` (34200, i.e. 09:30) strictly before `start` (36000, i.e. 10:00)
returns success and persists an occupancy with negative duration. -/
theorem occupancyCreate_accepts_end_before_start :
    occupancyCreate [⟨1, "B.001", 30⟩] [1] [] 1 1 36000 34200 "X" "cm" 1
      = .ok [{ id := 1, classroomId := 1, subjectId := some 1,
               teacherId := none, groupNumber := 0, startDatetime := 36000,
               duration := -1800, name := "X", occupancyType := "cm",
               deleted := false }]
    ∧ (36000 : Int) + (-1800) < 36000 :=
  ⟨rfl, by norm_num⟩

/-- Patch body of an occupancy update request (`OccupancyUpdateRequest`):
optional `classroom_id`, `start`, `end`, `name`. -/
structure OccupancyPatch where
  classroomId : Option Nat
  start : Option Int
  stop : Option Int
  name : Option String
deriving Repr, DecidableEq

/-- Continuation of `occupancyPut` after the `classroom_id` branch,
embedding occupancy_viewsets.py lines 254-260.  The `'start'` branch
executes `occupancy.last_name = data['start']`: `last_name` is not a
field of the Occupancy model (spec section 3), so the assignment writes
a transient attribute that `save()` never persists — no stored field
changes.  The `'end'` branch executes
`occupancy.duration = data['end'] - occupancy.start_datetime`, an
`int - datetime` subtraction that raises `TypeError` before `save()` is
reached; no handler catches it.  Only the `'name'` branch updates a real
model field. -/
def occupancyPutRest (occs : List Occupancy) (occupancy : Occupancy)
    (p : OccupancyPatch) : Except Err (List Occupancy) :=
  match p.stop with
  | some _ => .error .uncaughtTypeError
  | none =>
    let updated := match p.name with
      | some n => { occupancy with name := n }
      | none => occupancy
    .ok (occs.map (fun o => if o.id == occupancy.id then updated else o))

/-- Embeds `OccupancyDetailViewSet.put` (occupancy_viewsets.py lines
238-269).  The occupancy is fetched by id (`Occupancy.DoesNotExist` is
caught and mapped to `InvalidID`).  The `'classroom_id'` branch fetches
the classroom and executes `occupancy._class = classroom`: `_class` is
not a field of the Occupancy model (its classroom reference field is
`classroom`, spec section 3), so nothing stored changes; and the guard
`except Class.DoesNotExist` names the wrong model's exception class, so
a missing classroom raises `Classroom.DoesNotExist` uncaught instead of
returning `InvalidID`. -/
def occupancyPut (classrooms : List Classroom) (occs : List Occupancy)
    (occId : Nat) (p : OccupancyPatch) : Except Err (List Occupancy) :=
  match occs.find? (fun o => o.id == occId) with
  | none => .error .invalidID
  | some occupancy =>
    match p.classroomId with
    | some cid =>
      match findClassroom classrooms cid with
      | none => .error .uncaughtClassroomDoesNotExist
      | some _ => occupancyPutRest occs occupancy p
    | none => occupancyPutRest occs occupancy p

/-- Claim C5: the claim states that a patch supplying `classroom_id`
changes the occupancy's classroom reference and a patch supplying
`start` changes its start instant.  The code writes both values to
attributes (`_class`, `last_name`) that are not fields of the Occupancy
model, so the update returns success while the stored occupancy — in
particular its classroom (still 1, not 2) and start instant (still
32400, not 50000) — is bit-for-bit unchanged. -/
theorem occupancyPut_changes_nothing :
    occupancyPut [⟨1, "B.001", 30⟩, ⟨2, "B.002", 40⟩] [algoCM] 1
        { classroomId := some 2, start := some 50000, stop := none, name := none }
      = .ok [algoCM]
    ∧ algoCM.classroomId = 1
    ∧ algoCM.startDatetime = 32400 :=
  ⟨rfl, rfl, rfl⟩

/-- Claim C6: the claim states that a patch naming a nonexistent
classroom fails with `InvalidID`.  The handler's guard catches
`Class.DoesNotExist`, but `Classroom.objects.get` raises
`Classroom.DoesNotExist` — a different exception class — which therefore
propagates uncaught (HTTP 500) instead of producing the documented
`InvalidID` response. -/
theorem occupancyPut_missing_classroom_uncaught :
    occupancyPut [⟨1, "B.001", 30⟩] [algoCM] 1
        { classroomId := some 7, start := none, stop := none, name := none }
      = .error .uncaughtClassroomDoesNotExist
    ∧ Err.uncaughtClassroomDoesNotExist ≠ Err.invalidID :=
  ⟨rfl, by decide⟩

/-- Embeds `delete_classroom` inside `ClassroomViewSet.delete`
(classroom_viewsets.py lines 332-338): fetch the classroom by id
(`Classroom.DoesNotExist` is caught and mapped to `InvalidID`) and call
`classroom.delete()`.  The occupancy table is never consulted — the
`_occs` parameter is taken only to record that fact.  Modelled from the
spec where `scolendar/models.py` is missing from the sources: the
foreign-key delete behavior is not visible, so deletion is modelled as
plain removal of the classroom row; under no alternative (cascade or a
protected-error exception) does the handler return `ClassroomUsed`. -/
def delete_classroom (classrooms : List Classroom) (_occs : List Occupancy)
    (cid : Nat) : Except Err (List Classroom) :=
  match findClassroom classrooms cid with
  | none => .error .invalidID
  | some _ => .ok (classrooms.filter (fun c => c.id != cid))

/-- Claim C9: the claim states that deleting a classroom referenced by a
non-deleted occupancy fails with `ClassroomUsed` and the classroom
remains.  The code never checks for referencing occupancies: with
occupancy `algoCM` (non-deleted) referencing classroom 1, the deletion
of classroom 1 returns success and removes the classroom. -/
theorem delete_classroom_ignores_occupancies :
    delete_classroom [⟨1, "B.001", 30⟩] [algoCM] 1 = .ok []
    ∧ algoCM.classroomId = 1
    ∧ algoCM.deleted = false :=
  ⟨rfl, rfl, rfl⟩

/-- Teacher-subject assignment (the join entity the spec names
`TeacherAssignment`; the source calls it `SubjectTeacher` in the
viewsets and `TeacherSubject` in the serializers).  Fields modelled from
spec section 3: a (teacher, subject) pair with a boolean `in_charge`
flag. -/
structure SubjectTeacher where
  teacherId : Nat
  subjectId : Nat
  inCharge : Bool
deriving Repr, DecidableEq

/-- Number of assignments of a subject:
`SubjectTeacher.objects.filter(subject_id=...)` counted. -/
def countTeachers (sts : List SubjectTeacher) (sid : Nat) : Nat :=
  (sts.filter (fun st => st.subjectId == sid)).length

/-- Rows matching
`SubjectTeacher.objects.get(teacher_id=..., subject_id=...)`. -/
def assignmentsOf (sts : List SubjectTeacher) (sid tid : Nat) :
    List SubjectTeacher :=
  sts.filter (fun st => st.teacherId == tid && st.subjectId == sid)

/-- Embeds `remove_teacher_from_subject` inside
`SubjectTeacherViewSet.delete` (subject_viewsets.py lines 945-962),
together with the caller's exception mapping: the subject's assignment
count is checked first (`<= 1` raises `TeacherInChargeError('Not enough
teachers')`, before the target row is even looked up), then the target
row is fetched (`DoesNotExist` is mapped to `InvalidID` by the caller;
several matching rows would raise `MultipleObjectsReturned` uncaught),
the `in_charge` flag is checked, and only then is the single row
deleted. -/
def remove_teacher_from_subject (sts : List SubjectTeacher) (sid tid : Nat) :
    Except Err (List SubjectTeacher) :=
  if countTeachers sts sid ≤ 1 then
    .error (.teacherInCharge "Not enough teachers")
  else
    match assignmentsOf sts sid tid with
    | [] => .error .invalidID
    | [st] =>
      if st.inCharge then
        .error (.teacherInCharge "Teacher is in charge")
      else
        .ok (sts.filter (fun st => !(st.teacherId == tid && st.subjectId == sid)))
    | _ => .error .uncaughtMultipleObjectsReturned

theorem length_filter_and_split {α : Type} (p q : α → Bool) (l : List α) :
    (l.filter p).length
      = (l.filter (fun a => p a && q a)).length
        + (l.filter (fun a => p a && !q a)).length := by
  induction l with
  | nil => rfl
  | cons a l ih =>
    cases hp : p a <;> cases hq : q a <;>
      simp [List.filter_cons, hp, hq, ih] <;> omega

/-- Claim C7: removing a teacher from a subject is rejected with the
insufficient-teachers error whenever the subject has at most one
assignment (the count guard runs before the target row is looked up, so
this holds even for an unassigned target id, which would otherwise give
`InvalidID`); it is rejected with the in-charge error when the target
row is the in-charge assignment; and a successful removal always leaves
the subject with at least one assignment. -/
theorem remove_teacher_from_subject_guards
    (sts : List SubjectTeacher) (sid tid : Nat) :
    (countTeachers sts sid ≤ 1 →
        remove_teacher_from_subject sts sid tid
          = .error (.teacherInCharge "Not enough teachers"))
    ∧ (∀ st, 2 ≤ countTeachers sts sid → assignmentsOf sts sid tid = [st] →
        st.inCharge = true →
        remove_teacher_from_subject sts sid tid
          = .error (.teacherInCharge "Teacher is in charge"))
    ∧ (∀ res, remove_teacher_from_subject sts sid tid = .ok res →
        1 ≤ countTeachers res sid) := by
  refine ⟨?_, ?_, ?_⟩
  · intro h
    simp [remove_teacher_from_subject, if_pos h]
  · intro st h2 hassign hic
    have hnot : ¬ countTeachers sts sid ≤ 1 := by omega
    simp [remove_teacher_from_subject, if_neg hnot, hassign, hic]
  · intro res hres
    by_cases hle : countTeachers sts sid ≤ 1
    · simp [remove_teacher_from_subject, if_pos hle] at hres
    · rw [remove_teacher_from_subject, if_neg hle] at hres
      rcases hq : assignmentsOf sts sid tid with _ | ⟨st0, _ | ⟨st1, rest⟩⟩ <;>
        rw [hq] at hres
      · cases hres
      · dsimp only at hres
        by_cases hic : st0.inCharge = true
        · rw [if_pos hic] at hres
          cases hres
        · rw [if_neg hic] at hres
          simp only [Except.ok.injEq] at hres
          have hff :
              (sts.filter (fun st =>
                  (st.subjectId == sid)
                    && (st.teacherId == tid && st.subjectId == sid))).length
                = 1 := by
            have hcg : sts.filter (fun st =>
                  (st.subjectId == sid)
                    && (st.teacherId == tid && st.subjectId == sid))
                = sts.filter (fun st => st.teacherId == tid && st.subjectId == sid) := by
              apply List.filter_congr
              intro x _
              cases hA : (x.teacherId == tid) <;>
                cases hB : (x.subjectId == sid) <;> simp [hA, hB]
            rw [hcg]
            have : assignmentsOf sts sid tid
                = sts.filter (fun st => st.teacherId == tid && st.subjectId == sid) := rfl
            rw [← this, hq]
            rfl
          have hsplit := length_filter_and_split
            (fun st : SubjectTeacher => st.subjectId == sid)
            (fun st : SubjectTeacher => st.teacherId == tid && st.subjectId == sid) sts
          have hcount : countTeachers res sid
              = (sts.filter (fun st =>
                  (st.subjectId == sid)
                    && !(st.teacherId == tid && st.subjectId == sid))).length := by
            rw [← hres]
            unfold countTeachers
            rw [List.filter_filter]
          rw [hcount]
          unfold countTeachers at hle
          omega
      · cases hres

/-- Concrete check of `remove_teacher_from_subject_guards` on the
scenario of spec section 8: subject 1 with teachers 1 (in charge) and 2.
Removing from a one-assignment subject gives the insufficient-teachers
error (even though teacher 5 is not assigned at all), removing the
in-charge teacher gives the in-charge error, and the successful removal
of teacher 2 leaves one assignment. -/
theorem remove_teacher_from_subject_guards_check :
    remove_teacher_from_subject [⟨2, 1, false⟩] 1 5
      = .error (.teacherInCharge "Not enough teachers")
    ∧ remove_teacher_from_subject [⟨1, 1, true⟩, ⟨2, 1, false⟩] 1 1
      = .error (.teacherInCharge "Teacher is in charge")
    ∧ 1 ≤ countTeachers [⟨1, 1, true⟩] 1 :=
  ⟨(remove_teacher_from_subject_guards [⟨2, 1, false⟩] 1 5).1 (by decide),
   (remove_teacher_from_subject_guards [⟨1, 1, true⟩, ⟨2, 1, false⟩] 1 1).2.1
     ⟨1, 1, true⟩ (by decide) rfl rfl,
   (remove_teacher_from_subject_guards [⟨1, 1, true⟩, ⟨2, 1, false⟩] 1 2).2.2
     [⟨1, 1, true⟩] rfl⟩

/-- Embeds the `teacher_in_charge_id` branch of `SubjectDetailViewSet.put`
(subject_viewsets.py lines 532-548).  The branch first fetches the
current in-charge row and sets `in_charge = False` on the fetched Python
object only; that object is never saved — the variable holding it is
immediately reassigned by the next query — so the store keeps the old
in-charge row unchanged.  Then the row for the new teacher is fetched
(or freshly built if absent), its `in_charge` is set to `True`, and it
alone is saved.  A missing teacher id gives `InvalidID`
(`Teacher.DoesNotExist` is caught correctly here). -/
def updateTeacherInCharge (teacherIds : List Nat) (sts : List SubjectTeacher)
    (sid tid : Nat) : Except Err (List SubjectTeacher) :=
  if teacherIds.contains tid then
    if (sts.filter (fun st => st.subjectId == sid && st.teacherId == tid)).isEmpty then
      .ok (sts ++ [⟨tid, sid, true⟩])
    else
      .ok (sts.map (fun st =>
        if st.subjectId == sid && st.teacherId == tid then
          ⟨st.teacherId, st.subjectId, true⟩
        else st))
  else .error .invalidID

/-- Number of assignments of a subject whose `in_charge` flag is set. -/
def countInCharge (sts : List SubjectTeacher) (sid : Nat) : Nat :=
  (sts.filter (fun st => st.subjectId == sid && st.inCharge)).length

/-- Claim C8: the claim states that updating a subject's
teacher-in-charge preserves the invariant that at most one assignment
per subject has `in_charge = true`.  The code breaks it: starting from
subject 1 with teacher 1 in charge and teacher 2 assigned (one in-charge
row), updating the teacher-in-charge to teacher 2 leaves BOTH rows with
`in_charge = true`, because the demotion of the old row is never saved. -/
theorem updateTeacherInCharge_breaks_invariant :
    updateTeacherInCharge [1, 2] [⟨1, 1, true⟩, ⟨2, 1, false⟩] 1 2
      = .ok [⟨1, 1, true⟩, ⟨2, 1, true⟩]
    ∧ countInCharge [⟨1, 1, true⟩, ⟨2, 1, false⟩] 1 = 1
    ∧ countInCharge [⟨1, 1, true⟩, ⟨2, 1, true⟩] 1 = 2 :=
  ⟨rfl, rfl, rfl⟩

/-- Day-of-month of the civil date that lies `z` days after the Unix
epoch (standard civil-from-days conversion, proleptic Gregorian).  This
realizes the `.day` attribute of a Python datetime, i.e. the value the
ORM lookup `start_datetime__day=...` compares. -/
def civilDayOfMonth (z : Int) : Int :=
  let zz := z + 719468
  let era := Int.fdiv zz 146097
  let doe := zz - era * 146097
  let yoe := Int.fdiv (doe - Int.fdiv doe 1460 + Int.fdiv doe 36524 - Int.fdiv doe 146096) 365
  let doy := doe - (365 * yoe + Int.fdiv yoe 4 - Int.fdiv yoe 100)
  let mp := Int.fdiv (5 * doy + 2) 153
  doy - Int.fdiv (153 * mp + 2) 5 + 1

/-- Day-of-month of a Unix timestamp in the configured fixed zone. -/
def dayOfMonth (t : Int) : Int :=
  civilDayOfMonth (Int.fdiv t 86400)

/-- Timestamp truncated to the start of its calendar day:
`Trunc('start_datetime', 'day')`. -/
def truncDay (t : Int) : Int :=
  86400 * Int.fdiv t 86400

/-- Insertion into a list already sorted by start instant. -/
def insertByStart (o : Occupancy) : List Occupancy → List Occupancy
  | [] => [o]
  | x :: xs =>
    if o.startDatetime ≤ x.startDatetime then o :: x :: xs
    else x :: insertByStart o xs

/-- `order_by('start_datetime')`: sort by start instant ascending. -/
def sortByStart : List Occupancy → List Occupancy
  | [] => []
  | x :: xs => insertByStart x (sortByStart xs)

/-- Base row predicate of the two listing queries: `deleted=False`, plus
`classroom=classroom` in the `ClassroomOccupancyViewSet` variant
(`classroomFilter = some cid`); `OccupancyViewSet` passes `none`. -/
def keepOcc (classroomFilter : Option Nat) (o : Occupancy) : Bool :=
  !o.deleted &&
    (match classroomFilter with
     | some cid => o.classroomId == cid
     | none => true)

/-- Embeds the query-building steps of `get_days`
(occupancy_viewsets.py lines 103-118 and classroom_viewsets.py lines
617-634): filter non-deleted rows (and the classroom for the classroom
variant), order by start instant, then apply the optional bounds —
`start_datetime__gte=start` when a start bound is supplied and
`end_datetime__lte=end` when an end bound is supplied, both
inclusive. -/
def filterOccs (occs : List Occupancy) (classroomFilter : Option Nat)
    (startTs endTs : Option Int) : List Occupancy :=
  let base := sortByStart (occs.filter (keepOcc classroomFilter))
  let base1 := match startTs with
    | some s => base.filter (fun o => decide (s ≤ o.startDatetime))
    | none => base
  match endTs with
  | some e => base1.filter (fun o => decide (o.endDatetime ≤ e))
  | none => base1

/-- One entry of the day-bucketed listing: the iterated day (as the
timestamp of its midnight; the code formats it `%d-%m-%Y`) and the
occupancies listed under it. -/
structure DayBucket where
  day : Int
  occupancies : List Occupancy
deriving Repr, DecidableEq

/-- Embeds `get_days` (occupancy_viewsets.py lines 97-144 and, with a
classroom filter, classroom_viewsets.py lines 611-660).  After the
filters, the code indexes `occ[0]` and `occ[len(occ) - 1]` — on an empty
result this raises `IndexError`, caught by no handler.  Otherwise it
iterates the days from the first occupancy's day over
`(last.day - first.day).days + 2` days, and under each iterated day
lists the occupancies whose `start_datetime__day` — day-of-month only —
equals the iterated day's day-of-month, skipping days with no match and
truncating each day's list to `occupancies_per_day` entries when that
cap is nonzero. -/
def get_days (occs : List Occupancy) (classroomFilter : Option Nat)
    (startTs endTs : Option Int) (nbPerDay : Nat) :
    Except Err (List DayBucket) :=
  let occ := filterOccs occs classroomFilter startTs endTs
  match occ with
  | [] => .error .uncaughtIndexError
  | first :: rest =>
    let lastO := rest.getLastD first
    let firstDay := truncDay first.startDatetime
    let lastDay := truncDay lastO.startDatetime
    let count := (Int.fdiv (lastDay - firstDay) 86400).toNat + 2
    .ok ((List.range count).filterMap (fun n =>
      let day := firstDay + 86400 * (Int.ofNat n)
      let dayOccAll := (first :: rest).filter
        (fun o => dayOfMonth o.startDatetime == dayOfMonth day)
      match dayOccAll with
      | [] => none
      | _ => some { day := day,
                    occupancies := if nbPerDay == 0 then dayOccAll
                                   else dayOccAll.take nbPerDay }))

/-- A soft-deleted occupancy, the only row of the store in the failing
input of claim C3: the listing's filters then select zero rows. -/
def deletedOcc : Occupancy :=
  { id := 9, classroomId := 1, subjectId := some 1, teacherId := none,
    groupNumber := 0, startDatetime := 32400, duration := 5400,
    name := "Old", occupancyType := "cm", deleted := true }

/-- Claim C3: the claim states that a listing whose filters select zero
occupancies returns an empty bucket list and does not fail.  The code
instead evaluates `occ[0].day` on the empty query set, raising an
uncaught `IndexError` (HTTP 500): here the store's only occupancy is
soft-deleted, so the `deleted=False` filter leaves nothing. -/
theorem get_days_empty_raises :
    get_days [deletedOcc] none none none 0 = .error .uncaughtIndexError
    ∧ filterOccs [deletedOcc] none none none = [] :=
  ⟨rfl, rfl⟩

/-- Occupancy starting 2020-01-05 10:00 (timestamp 1578218400). -/
def jan5Occ : Occupancy :=
  { id := 1, classroomId := 1, subjectId := some 1, teacherId := none,
    groupNumber := 0, startDatetime := 1578218400, duration := 5400,
    name := "Jan 5", occupancyType := "cm", deleted := false }

/-- Occupancy starting 2020-02-05 10:00 (timestamp 1580896800) — a
different calendar day but the same day-of-month as `jan5Occ`. -/
def feb5Occ : Occupancy :=
  { id := 2, classroomId := 1, subjectId := some 1, teacherId := none,
    groupNumber := 0, startDatetime := 1580896800, duration := 5400,
    name := "Feb 5", occupancyType := "cm", deleted := false }

/-- Claim C4: the claim states that each occupancy lands exactly once in
the bucket of its own calendar day, in particular that occupancies with
the same day-of-month in different months land in different buckets.
The code filters each iterated day by `start_datetime__day` —
day-of-month only — so the Jan 5 and Feb 5 occupancies BOTH appear under
BOTH the 2020-01-05 bucket (day 1578182400) and the 2020-02-05 bucket
(day 1580860800): each appears twice, and each bucket contains an
occupancy from the wrong month. -/
theorem get_days_buckets_by_day_of_month :
    get_days [jan5Occ, feb5Occ] none none none 0
      = .ok [{ day := 1578182400, occupancies := [jan5Occ, feb5Occ] },
             { day := 1580860800, occupancies := [jan5Occ, feb5Occ] }]
    ∧ truncDay jan5Occ.startDatetime = 1578182400
    ∧ truncDay feb5Occ.startDatetime = 1580860800
    ∧ (1578182400 : Int) ≠ 1580860800 :=
  ⟨rfl, rfl, rfl, by norm_num⟩

theorem mem_insertByStart (o a : Occupancy) (l : List Occupancy) :
    o ∈ insertByStart a l ↔ o = a ∨ o ∈ l := by
  induction l with
  | nil => simp [insertByStart]
  | cons x xs ih =>
    simp only [insertByStart]
    split
    · simp [List.mem_cons]
    · simp [List.mem_cons, ih]
      tauto

theorem mem_sortByStart (o : Occupancy) (l : List Occupancy) :
    o ∈ sortByStart l ↔ o ∈ l := by
  induction l with
  | nil => simp [sortByStart]
  | cons x xs ih => simp [sortByStart, mem_insertByStart, ih]

/-- Claim C10: in the listing queries, a supplied start bound keeps
exactly the rows whose start instant is at or after it, and a supplied
end bound keeps exactly the rows whose end instant is at or before it:
an occupancy survives the filters precisely when it passes the base
predicate (non-deleted, matching classroom) and its whole interval is
contained in `[s, e]`, both bounds inclusive.  Consequently an occupancy
that merely overlaps the query window — starting before `s` or ending
after `e` — is excluded. -/
theorem filterOccs_mem_iff_contained (occs : List Occupancy)
    (cf : Option Nat) (s e : Int) (o : Occupancy) :
    o ∈ filterOccs occs cf (some s) (some e) ↔
      o ∈ occs ∧ keepOcc cf o = true
        ∧ s ≤ o.startDatetime ∧ o.endDatetime ≤ e := by
  simp only [filterOccs, List.mem_filter, mem_sortByStart,
    decide_eq_true_eq]
  tauto
